import Mathlib

/-!
# Verification of the Cast Manager adapter (`src/CastManager.ts`)

A shallow embedding of the repository's state-synchronization core:
the `EventEmitter` publish/subscribe registry, the SDK bootstrap polling
loop (`waitForCastFramework`), and the `CastManager` session adapter
(`initialize`, `sendMessage`, the `SESSION_STATE_CHANGED` handler, the
message listener, `destroy`, and the static `getInstance` singleton).

Listener callbacks are opaque references; we model them by `Nat`
identifiers, since the source stores them in a `Set<Function>` and only
their reference identity matters to registration.  Session handles and
structured message values are likewise opaque (`Nat`).  External effects
(calls into the Cast SDK, emitted events, thrown exceptions) are made
explicit in the return types of the embedded operations.
-/

namespace CastManagerSpec

/-- `CastState` from `src/types.ts`: the four Cast connectivity states. -/
inductive CastState
  | NO_DEVICES_AVAILABLE
  | NOT_CONNECTED
  | CONNECTING
  | CONNECTED
deriving DecidableEq, Repr

/-- `SessionState` from `src/types.ts`: the seven session lifecycle states. -/
inductive SessionState
  | NO_SESSION
  | SESSION_STARTING
  | SESSION_STARTED
  | SESSION_START_FAILED
  | SESSION_ENDING
  | SESSION_ENDED
  | SESSION_RESUMED
deriving DecidableEq, Repr

/-- `CastEventType.CAST_STATE_CHANGED` from `src/types.ts`. -/
def CAST_STATE_CHANGED : String := "castStateChanged"

/-- `CastEventType.SESSION_STATE_CHANGED` from `src/types.ts`. -/
def SESSION_STATE_CHANGED : String := "sessionStateChanged"

/-- `CastEventType.MESSAGE_RECEIVED` from `src/types.ts`. -/
def MESSAGE_RECEIVED : String := "messageReceived"

/-!
## The `EventEmitter` (CastManager.ts lines 385-416)

`private listeners: Map<string, Set<Function>>`.  A JS `Map` preserves
key insertion order and has unique keys; a JS `Set` preserves insertion
order and holds each element at most once.  We model the map as an
association list `List (String × List Nat)` and each `Set` as a `List Nat`
into which `add` appends only when absent (exactly `Set.add` semantics).
-/

/-- The `EventEmitter`'s `listeners` map: event name to ordered listener set. -/
structure EventEmitter where
  listeners : List (String × List Nat)
deriving DecidableEq, Repr

/-- JS `Map.get`: the first (and, with unique keys, only) entry for `e`. -/
def lookupListeners : List (String × List Nat) → String → Option (List Nat)
  | [], _ => none
  | p :: rest, e => if p.1 = e then some p.2 else lookupListeners rest e

/-- The listener set currently registered for `event` (empty when no entry). -/
def listenersFor (em : EventEmitter) (event : String) : List Nat :=
  (lookupListeners em.listeners event).getD []

/-- JS `Set.add`: append the element only when it is not already present. -/
def addListener (ls : List Nat) (l : Nat) : List Nat :=
  if l ∈ ls then ls else ls ++ [l]

/-- In-place update of the set stored under `event`, leaving other entries
alone (how we render a JS `Map` whose stored `Set` is mutated). -/
def updateEntry (event : String) (f : List Nat → List Nat) (p : String × List Nat) :
    String × List Nat :=
  if p.1 = event then (p.1, f p.2) else p

/-- `EventEmitter.on` (lines 388-393): if `!this.listeners.has(event)` install an
empty set for the event, then `Set.add` the listener to the event's set. -/
def emOn (em : EventEmitter) (event : String) (l : Nat) : EventEmitter :=
  if (lookupListeners em.listeners event).isSome then
    ⟨em.listeners.map (updateEntry event (fun s => addListener s l))⟩
  else
    ⟨em.listeners ++ [(event, [l])]⟩

/-- `EventEmitter.off` (lines 395-400): `Set.delete` the listener from the
entry for `event`, when one exists. -/
def emOff (em : EventEmitter) (event : String) (l : Nat) : EventEmitter :=
  ⟨em.listeners.map (updateEntry event (fun s => s.filter (fun x => x ≠ l)))⟩

/-- `EventEmitter.removeAllListeners` (lines 409-415): delete one entry, or
clear the whole map. -/
def removeAllListeners (em : EventEmitter) (event : Option String) : EventEmitter :=
  match event with
  | some e => ⟨em.listeners.filter (fun p => ¬ p.1 = e)⟩
  | none => ⟨[]⟩

/-- `EventEmitter.emit` runs `eventListeners.forEach((listener) => listener(data))`
with no try/catch (lines 402-407).  Given which listeners throw, this returns
the listeners actually invoked, in order, and whether an exception escaped
`emit`: JS `forEach` stops iterating as soon as a callback throws. -/
def emitRun (throws : Nat → Bool) : List Nat → List Nat × Bool
  | [] => ([], false)
  | l :: rest =>
    if throws l then ([l], true)
    else
      let r := emitRun throws rest
      (l :: r.1, r.2)

/-- A well-formed emitter: every stored listener set is duplicate-free
(automatic for a JS `Set`). -/
def EmitterWF (em : EventEmitter) : Prop :=
  ∀ p ∈ em.listeners, p.2.Nodup

instance (em : EventEmitter) : Decidable (EmitterWF em) := by
  unfold EmitterWF; infer_instance

/-! ### Basic emitter lemmas -/

theorem addListener_mem (ls : List Nat) (l : Nat) : l ∈ addListener ls l := by
  unfold addListener
  by_cases h : l ∈ ls <;> simp [h]

theorem addListener_idem (ls : List Nat) (l : Nat) :
    addListener (addListener ls l) l = addListener ls l := by
  unfold addListener
  by_cases h : l ∈ ls <;> simp [h]

theorem addListener_mem_of_ne {ls : List Nat} {x l : Nat} (hx : x ∈ addListener ls l)
    (hne : x ≠ l) : x ∈ ls := by
  unfold addListener at hx
  by_cases h : l ∈ ls
  · simpa [h] using hx
  · simp only [h, if_false, List.mem_append, List.mem_singleton] at hx
    rcases hx with hx | hx
    · exact hx
    · exact absurd hx hne

theorem addListener_nodup {ls : List Nat} (h : ls.Nodup) (l : Nat) :
    (addListener ls l).Nodup := by
  unfold addListener
  by_cases hm : l ∈ ls
  · simpa [hm] using h
  · simp only [hm, if_false]
    rw [List.nodup_append]
    refine ⟨h, List.nodup_singleton l, ?_⟩
    intro a ha hb
    have : a = l := by simpa using hb
    exact hm (this ▸ ha)

theorem addListener_count {ls : List Nat} (h : ls.Nodup) (l : Nat) :
    (addListener ls l).count l = 1 := by
  unfold addListener
  by_cases hm : l ∈ ls
  · simp only [hm, if_true]
    have h1 : ls.count l ≤ 1 := List.nodup_iff_count_le_one.mp h l
    have h2 : 1 ≤ ls.count l := List.one_le_count_iff.mpr hm
    omega
  · simp only [hm, if_false]
    rw [List.count_append]
    have : ls.count l = 0 := List.count_eq_zero.mpr hm
    simp [this]

/-- Looking up after a keyed in-place update: the `event` entry is transformed
by `f`, every other entry is untouched. -/
theorem lookup_map_update (l : List (String × List Nat)) (event e : String)
    (f : List Nat → List Nat) :
    lookupListeners (l.map (updateEntry event f)) e
      = if e = event then (lookupListeners l e).map f else lookupListeners l e := by
  induction l with
  | nil => by_cases h : e = event <;> simp [lookupListeners, h]
  | cons hd tl ih =>
    by_cases hk : hd.1 = event
    · by_cases he : e = event
      · have h1 : hd.1 = e := by rw [hk, he]
        simp [lookupListeners, updateEntry, hk, he, h1, ih]
      · have h1 : ¬ hd.1 = e := by rw [hk]; exact fun hh => he hh.symm
        have h2 : ¬ event = e := fun hh => he hh.symm
        simp [lookupListeners, updateEntry, hk, he, h1, h2, ih]
    · by_cases hke : hd.1 = e
      · have h1 : ¬ e = event := by rw [← hke]; exact fun hh => hk hh
        simp [lookupListeners, updateEntry, hk, hke, h1]
      · simp [lookupListeners, updateEntry, hk, hke, ih]

/-- Looking up in a map extended on the right with a fresh entry. -/
theorem lookup_append_single (l : List (String × List Nat)) (event e : String)
    (ls : List Nat) :
    lookupListeners (l ++ [(event, ls)]) e
      = match lookupListeners l e with
        | some x => some x
        | none => if event = e then some ls else none := by
  induction l with
  | nil => simp [lookupListeners]
  | cons hd tl ih =>
    by_cases hk : hd.1 = e
    · simp [lookupListeners, hk]
    · simp [lookupListeners, hk, ih]

theorem listenersFor_emOn_self (em : EventEmitter) (event : String) (l : Nat) :
    listenersFor (emOn em event l) event = addListener (listenersFor em event) l := by
  unfold emOn listenersFor
  by_cases h : (lookupListeners em.listeners event).isSome
  · rw [if_pos h]
    obtain ⟨ls, hls⟩ := Option.isSome_iff_exists.mp h
    simp [lookup_map_update, hls]
  · rw [if_neg h]
    have hnone : lookupListeners em.listeners event = none :=
      Option.not_isSome_iff_eq_none.mp h
    simp [lookup_append_single, hnone, addListener]

theorem listenersFor_emOn_other (em : EventEmitter) {event event' : String}
    (h : event' ≠ event) (l : Nat) :
    listenersFor (emOn em event l) event' = listenersFor em event' := by
  unfold emOn listenersFor
  by_cases hc : (lookupListeners em.listeners event).isSome
  · rw [if_pos hc]
    simp [lookup_map_update, h]
  · rw [if_neg hc]
    rw [lookup_append_single]
    have : ¬ event = event' := fun hh => h hh.symm
    rcases hl : lookupListeners em.listeners event' with _ | x <;> simp [this, hl]

theorem listenersFor_emOff_self (em : EventEmitter) (event : String) (l : Nat) :
    listenersFor (emOff em event l) event
      = (listenersFor em event).filter (fun x => x ≠ l) := by
  unfold emOff listenersFor
  rw [lookup_map_update]
  rcases hl : lookupListeners em.listeners event with _ | x <;> simp [hl]

theorem listenersFor_emOff_other (em : EventEmitter) {event event' : String}
    (h : event' ≠ event) (l : Nat) :
    listenersFor (emOff em event l) event' = listenersFor em event' := by
  unfold emOff listenersFor
  rw [lookup_map_update]
  simp [h]

/-- A listener that never throws: `emitRun` invokes the whole set in order and
no exception escapes. -/
theorem emitRun_no_throw (ls : List Nat) :
    emitRun (fun _ => false) ls = (ls, false) := by
  induction ls with
  | nil => rfl
  | cons hd tl ih => simp [emitRun, ih]

/-- Whoever is invoked by `emit` was registered. -/
theorem emitRun_subset (throws : Nat → Bool) (ls : List Nat) :
    ∀ x ∈ (emitRun throws ls).1, x ∈ ls := by
  induction ls with
  | nil => simp [emitRun]
  | cons hd tl ih =>
    intro x hx
    by_cases h : throws hd
    · have hxl : x = hd := by simpa [emitRun, h] using hx
      simp [hxl]
    · simp [emitRun, h] at hx
      rcases hx with hx | hx
      · simp [hx]
      · exact List.mem_cons_of_mem _ (ih x hx)

/-!
## Errors thrown by `CastManager`

The source throws anonymous `Error` objects; the spec refers to them by an
abstract taxonomy (§7).  One constructor per distinct `throw` site, with the
exact source message recorded in the doc comment.
-/

/-- The distinct failures `CastManager` can throw.
  * `noSession` — `"No Cast session available"` (sendMessage, line 614);
    the spec's `NoSessionError`.
  * `notInitialized` — `"CastManager not initialized. Call initialize() first."`
    (requestSession, line 630); the spec's `NotInitializedError`.
  * `noActiveSession` — `"No active Cast session"` (endSession, line 646);
    the spec's `NoActiveSessionError`.
  * `scriptLoadFailed` — `"Failed to load Cast SDK"` (loadCastFramework,
    line 486); the spec's `BootstrapError("script load failed")`.
  * `frameworkInitTimeout` — `"Cast framework failed to initialize."`
    (waitForCastFramework, line 509); the spec's
    `BootstrapError("framework init timeout")`.
  * `configRequired` — `"CastManager config required for first initialization"`
    (getInstance, line 467).
  * `sdkRejection` — a rejection from the underlying SDK, re-thrown after
    logging (sendMessage / requestSession / endSession); the spec's
    `SendFailedError` / `SessionRequestFailedError` / `EndSessionFailedError`
    wrapping the cause (modelled as an opaque cause id). -/
inductive CastError
  | noSession
  | notInitialized
  | noActiveSession
  | scriptLoadFailed
  | frameworkInitTimeout
  | configRequired
  | sdkRejection (cause : Nat)
deriving DecidableEq, Repr

/-- `Required<CastManagerConfig>`: the config after the constructor has applied
defaults.  `ns` renders the source's `namespace` field (a Lean keyword). -/
structure Config where
  receiverApplicationId : String
  autoInitialize : Bool
  ns : String
deriving DecidableEq, Repr

/-- The optional-field `CastManagerConfig` from `src/types.ts` as passed by the
caller (`none` = field omitted). -/
structure CastManagerConfig where
  receiverApplicationId : String
  autoInitialize : Option Bool
  ns : Option String
deriving DecidableEq, Repr

/-- The constructor's defaulting (CastManager.ts lines 447-451):
`autoInitialize ?? false`, `namespace ?? "urn:x-cast:com.custom"`. -/
def applyDefaults (config : CastManagerConfig) : Config :=
  { receiverApplicationId := config.receiverApplicationId
    autoInitialize := config.autoInitialize.getD false
    ns := config.ns.getD "urn:x-cast:com.custom" }

/-- The mutable instance fields of a `CastManager` (lines 436-439):
`context`, `session`, `initialized`, `config`, plus the inherited
`EventEmitter`'s `listeners` map.  The context and the session handle are
opaque SDK objects; we track presence of the context and the identity of the
session handle. -/
structure ManagerState where
  emitter : EventEmitter
  context : Option Unit
  session : Option Nat
  initialized : Bool
  config : Config
deriving DecidableEq, Repr

/-- `new CastManager(config)` before any asynchronous work: all SDK references
null, not initialized, config defaulted.  (With `autoInitialize` the
constructor also fires `initialize()` asynchronously, catching and logging its
failure; that runs strictly after construction returns.) -/
def newManager (config : CastManagerConfig) : ManagerState :=
  { emitter := ⟨[]⟩
    context := none
    session := none
    initialized := false
    config := applyDefaults config }

/-- What the external world does during bootstrap and commands:
  * `frameworkAt k` — whether `window.cast?.framework` exists at the `k`-th
    poll observation;
  * `scriptLoads` — whether the injected script tag fires `onload` (true) or
    `onerror` (false);
  * `apiAvailable` — whether `__onGCastApiAvailable` is eventually called with
    `true` (the source waits for this with no timeout);
  * `currentSession` — what `context.getCurrentSession()` returns;
  * `castState` — what `context.getCastState()` returns. -/
structure CastEnv where
  frameworkAt : Nat → Bool
  scriptLoads : Bool
  apiAvailable : Bool
  currentSession : Option Nat
  castState : CastState

/-! ## The bootstrap polling loop (CastManager.ts lines 502-511) -/

/-- The polling delay passed to `setTimeout` (line 505), in milliseconds. -/
def pollIntervalMs : Nat := 100

/-- The bound on the `attempts` counter (line 504). -/
def maxPollAttempts : Nat := 20

/-- The `while (!window.cast?.framework && attempts < 20)` loop.  Each
iteration sleeps `pollIntervalMs` and increments `attempts`; we return the
final value of `attempts`, which also counts the sleeps performed.  The guard
`attempts < 20` is carried as `fuel = 20 - attempts`, so the recursion is
structural. -/
def waitLoop (frameworkAt : Nat → Bool) : Nat → Nat → Nat
  | 0, attempts => attempts
  | fuel + 1, attempts =>
    if frameworkAt attempts then attempts
    else waitLoop frameworkAt fuel (attempts + 1)

/-- `waitForCastFramework`: run the bounded poll, then re-check
`window.cast?.framework` (at the observation index the loop stopped at) and
throw `"Cast framework failed to initialize."` if it never appeared. -/
def waitForCastFramework (frameworkAt : Nat → Bool) : Except CastError Unit :=
  if frameworkAt (waitLoop frameworkAt maxPollAttempts 0) then Except.ok ()
  else Except.error CastError.frameworkInitTimeout

/-- Outcome of `loadCastFramework`: the returned promise resolves, rejects, or
never settles (the unbounded wait on `__onGCastApiAvailable`). -/
inductive LoadOutcome
  | resolved
  | rejected (e : CastError)
  | pending
deriving DecidableEq, Repr

/-- `loadCastFramework` (lines 477-497): fast path when
`window.cast?.framework` already exists; else inject the script (reject on
load error), await the availability callback (never settles if it never fires
with `true`), then run the bounded poll. -/
def loadCastFramework (env : CastEnv) : LoadOutcome :=
  if env.frameworkAt 0 then LoadOutcome.resolved
  else if env.scriptLoads = false then LoadOutcome.rejected CastError.scriptLoadFailed
  else if env.apiAvailable = false then LoadOutcome.pending
  else
    match waitForCastFramework env.frameworkAt with
    | Except.ok _ => LoadOutcome.resolved
    | Except.error e => LoadOutcome.rejected e

/-!
## The session adapter's operations (CastManager.ts lines 517-727)
-/

/-- An event published through the adapter's dispatcher (`this.emit(...)`),
with the payload shapes of `src/types.ts`.  Structured message values are
opaque ids. -/
inductive EmittedEvent
  | castStateChanged (castState : CastState)
  | sessionStateChanged (sessionState : SessionState) (session : Option Nat)
  | messageReceived (ns : String) (message : Nat)
deriving DecidableEq, Repr

/-- Outcome of `initialize()`: the promise never settles (bootstrap stuck on
the availability callback), rejects, or resolves with the new instance state,
the events published while initializing, and the number of
`context.addEventListener` registrations performed. -/
inductive InitResult
  | pending
  | failed (e : CastError)
  | done (s : ManagerState) (events : List EmittedEvent) (nativeListenerRegs : Nat)
deriving DecidableEq, Repr

/-- The source's `initialize()` (lines 517-575); renamed because `initialize`
is a Lean keyword.  `if (this.initialized) return;` — else run the bootstrap,
acquire and configure the context, capture any pre-existing session, publish
the initial cast state, and register the two native context listeners.
`setupMessageListener()` for a pre-existing session only touches the external
session object. -/
def initializeManager (env : CastEnv) (s : ManagerState) : InitResult :=
  if s.initialized then InitResult.done s [] 0
  else
    match loadCastFramework env with
    | LoadOutcome.pending => InitResult.pending
    | LoadOutcome.rejected e => InitResult.failed e
    | LoadOutcome.resolved =>
      InitResult.done
        { s with context := some ()
                 session := env.currentSession
                 initialized := true }
        [EmittedEvent.castStateChanged env.castState]
        2

/-- The `SESSION_STATE_CHANGED` handler registered by `initialize` (lines
547-567): on `SESSION_STARTED`/`SESSION_RESUMED` refresh the handle from
`context.getCurrentSession()` (and re-install the message listener — an
external effect); on `SESSION_ENDED` clear the handle; otherwise leave it
alone.  Always emit the post-transition state and handle. -/
def onSessionStateChanged (s : ManagerState) (sessionState : SessionState)
    (currentSession : Option Nat) : ManagerState × EmittedEvent :=
  let s1 :=
    if sessionState = SessionState.SESSION_STARTED
        ∨ sessionState = SessionState.SESSION_RESUMED then
      { s with session := currentSession }
    else if sessionState = SessionState.SESSION_ENDED then
      { s with session := none }
    else s
  (s1, EmittedEvent.sessionStateChanged sessionState s1.session)

/-- Deliver a sequence of native session-lifecycle events, each paired with
what `context.getCurrentSession()` returns at that moment. -/
def applySessionEvents (s : ManagerState) (evs : List (SessionState × Option Nat)) :
    ManagerState :=
  evs.foldl (fun st ev => (onSessionStateChanged st ev.1 ev.2).1) s

/-- An inbound receiver message as handed to the native message listener:
either a string-encoded payload or an already-structured value. -/
inductive InboundMessage
  | str (raw : String)
  | structured (v : Nat)
deriving DecidableEq, Repr

/-- The callback installed by `setupMessageListener` (lines 586-597): parse a
string payload with `JSON.parse` (modelled by the partial decoder `decode`),
pass structured payloads through; on parse failure log and drop — the catch
swallows the exception, so no event is emitted and nothing propagates. -/
def messageListenerCallback (decode : String → Option Nat) (ns : String) :
    InboundMessage → List EmittedEvent
  | InboundMessage.structured v => [EmittedEvent.messageReceived ns v]
  | InboundMessage.str raw =>
    match decode raw with
    | some v => [EmittedEvent.messageReceived ns v]
    | none => []

/-- `setupMessageListener` (lines 580-602): early return when no session is
held; otherwise install `messageListenerCallback` on the configured namespace.
`addMessageListener` failures are caught and logged (lines 599-601), so this
call itself always returns. -/
def setupMessageListener (decode : String → Option Nat) (s : ManagerState) :
    Option (InboundMessage → List EmittedEvent) :=
  s.session.map (fun _ => messageListenerCallback decode s.config.ns)

/-- Events published for a stream of inbound messages on the channel: the
installed callback fires once per message. -/
def processInbound (decode : String → Option Nat) (ns : String)
    (msgs : List InboundMessage) : List EmittedEvent :=
  msgs.foldr (fun m acc => messageListenerCallback decode ns m ++ acc) []

/-- A call into the underlying SDK made by `sendMessage`. -/
inductive SdkCall
  | getCurrentSession
  | sendToSession (ns : String) (message : Nat)
deriving DecidableEq, Repr

/-- `sendMessage` (lines 608-623).  First `if (!this.session) this.session =
this.context?.getCurrentSession();` — the optional chaining makes no SDK call
when the context is null.  Then throw `"No Cast session available"` if still
no session; else `session.sendMessage(namespace, message)`, re-throwing the
SDK's rejection after logging.  Returns the final state (the refresh mutates
`this.session`) or the thrown error, together with every SDK call made. -/
def sendMessage (env : CastEnv) (sendResult : Except Nat Unit) (s : ManagerState)
    (message : Nat) : Except CastError ManagerState × List SdkCall :=
  let refreshed :=
    if s.session.isNone then
      match s.context with
      | some _ => ({ s with session := env.currentSession }, [SdkCall.getCurrentSession])
      | none => (s, ([] : List SdkCall))
    else (s, ([] : List SdkCall))
  match refreshed.1.session with
  | none => (Except.error CastError.noSession, refreshed.2)
  | some _ =>
    match sendResult with
    | Except.ok _ =>
      (Except.ok refreshed.1,
        refreshed.2 ++ [SdkCall.sendToSession refreshed.1.config.ns message])
    | Except.error cause =>
      (Except.error (CastError.sdkRejection cause),
        refreshed.2 ++ [SdkCall.sendToSession refreshed.1.config.ns message])

/-- The instance-field part of `destroy()` (lines 719-723):
`removeAllListeners()`, null out session and context, reset `initialized`.
The config field is not touched. -/
def destroyFields (s : ManagerState) : ManagerState :=
  { s with emitter := removeAllListeners s.emitter none
           session := none
           context := none
           initialized := false }

/-!
## The static singleton (`CastManager.instance`, lines 435 and 464-472)

Instances are identified by allocation ids so that JS reference equality
(`CastManager.instance === this`) is expressible.
-/

/-- The process-wide static state: the stored singleton (id and state) and the
next fresh allocation id. -/
structure World where
  singleton : Option (Nat × ManagerState)
  nextId : Nat
deriving DecidableEq, Repr

/-- `CastManager.getInstance(config?)` (lines 464-472): construct and store a
new instance on first use (throwing `"CastManager config required for first
initialization"` when no config is supplied), and return the stored instance
— ignoring any config argument — afterwards. -/
def getInstance (config : Option CastManagerConfig) (w : World) :
    Except CastError ((Nat × ManagerState) × World) :=
  match w.singleton with
  | some inst => Except.ok (inst, w)
  | none =>
    match config with
    | none => Except.error CastError.configRequired
    | some c =>
      let inst := (w.nextId, newManager c)
      Except.ok (inst, { singleton := some inst, nextId := w.nextId + 1 })

/-- `destroy()` (lines 719-727) as called on the instance `callerId` with
fields `callerState`: reset the instance fields, and clear the static
singleton reference exactly when `CastManager.instance === this`. -/
def destroy (callerId : Nat) (callerState : ManagerState) (w : World) :
    ManagerState × World :=
  (destroyFields callerState,
    match w.singleton with
    | some inst => if inst.1 = callerId then { w with singleton := none } else w
    | none => w)

/-!
## Dispatcher operation sequences (for temporal claims)
-/

/-- One public dispatcher operation, as named in the source: `on`, `off`, or
`emit`. -/
inductive EmOp
  | on (event : String) (l : Nat)
  | off (event : String) (l : Nat)
  | emit (event : String)
deriving DecidableEq, Repr

/-- One dispatcher operation applied to the registration state: `emit` reads
but never writes the `listeners` map. -/
def applyOp (em : EventEmitter) : EmOp → EventEmitter
  | EmOp.on e l => emOn em e l
  | EmOp.off e l => emOff em e l
  | EmOp.emit _ => em

/-- A whole sequence of dispatcher operations. -/
def applyOps (em : EventEmitter) (ops : List EmOp) : EventEmitter :=
  ops.foldl applyOp em

/-!
## Concrete sample data (used to instantiate universally quantified theorems)
-/

/-- A benign environment: framework present at once, script loads, callback
fires, no current session, state `NOT_CONNECTED`. -/
def sampleEnv : CastEnv :=
  { frameworkAt := fun _ => true
    scriptLoads := true
    apiAvailable := true
    currentSession := none
    castState := CastState.NOT_CONNECTED }

/-- The defaulted config of the spec's scenario,
`{receiverApplicationId: "ABCD1234"}`. -/
def sampleConfig : Config :=
  { receiverApplicationId := "ABCD1234"
    autoInitialize := false
    ns := "urn:x-cast:com.custom" }

/-- An adapter that has completed `initialize()` and seen no session events:
context held, no session handle. -/
def initializedState : ManagerState :=
  { emitter := ⟨[]⟩
    context := some ()
    session := none
    initialized := true
    config := sampleConfig }

/-- The caller-side config of the spec's scenario: only the receiver
application id supplied. -/
def sampleUserConfig : CastManagerConfig :=
  { receiverApplicationId := "ABCD1234"
    autoInitialize := none
    ns := none }

/-- Like `sampleEnv`, but the SDK context is holding a current session the
adapter has not been told about through a lifecycle event. -/
def sampleEnvWithSession : CastEnv :=
  { sampleEnv with currentSession := some 7 }

/-- A sample `JSON.parse` behaviour: only the payload `"good"` is well-formed
structured data (decoding to value `1`). -/
def sampleDecode : String → Option Nat :=
  fun raw => if raw = "good" then some 1 else none

/-!
## Predicates over lifecycle-event traces

`claimHandleNonNull` is written from the claim's words, for comparison with
the behaviour of the embedded handler; `settingEvent` names the lifecycle
states at which the handler actually writes the handle field.
-/

/-- The lifecycle states the claim treats as determining the handle:
"started"/"resumed" (handle set) and "ended"/"no session" (handle absent). -/
def handleRelevant (st : SessionState) : Bool :=
  st = SessionState.SESSION_STARTED ∨ st = SessionState.SESSION_RESUMED
    ∨ st = SessionState.SESSION_ENDED ∨ st = SessionState.NO_SESSION

/-- Whether a lifecycle state is "started" or "resumed". -/
def startedOrResumed (st : SessionState) : Bool :=
  st = SessionState.SESSION_STARTED ∨ st = SessionState.SESSION_RESUMED

/-- Claim C2's predicate, from its words: the handle is non-null iff the most
recently delivered "started"/"resumed" lifecycle event has no
"ended"/"no session" event after it — equivalently, the last handle-relevant
event of the trace is "started" or "resumed". -/
def claimHandleNonNull (evs : List (SessionState × Option Nat)) : Bool :=
  match evs.reverse.find? (fun ev => handleRelevant ev.1) with
  | some ev => startedOrResumed ev.1
  | none => false

/-- The lifecycle states at which the source handler writes the `session`
field: "started"/"resumed" (refresh from the context) and "ended" (clear).
`NO_SESSION` is not among them — the handler leaves the handle alone there. -/
def settingEvent (st : SessionState) : Bool :=
  st = SessionState.SESSION_STARTED ∨ st = SessionState.SESSION_RESUMED
    ∨ st = SessionState.SESSION_ENDED

/-!
## Further emitter lemmas
-/

theorem lookup_eq_none_iff (l : List (String × List Nat)) (e : String) :
    lookupListeners l e = none ↔ ∀ p ∈ l, ¬ p.1 = e := by
  induction l with
  | nil => simp [lookupListeners]
  | cons hd tl ih =>
    by_cases hk : hd.1 = e
    · simp [lookupListeners, hk]
    · simp [lookupListeners, hk, ih]

theorem lookup_mem {l : List (String × List Nat)} {e : String} {ls : List Nat}
    (h : lookupListeners l e = some ls) : (e, ls) ∈ l := by
  induction l with
  | nil => simp [lookupListeners] at h
  | cons hd tl ih =>
    by_cases hk : hd.1 = e
    · simp only [lookupListeners, hk, if_true, Option.some_inj] at h
      have hed : (e, ls) = hd := by
        rw [← hk, ← h]
      rw [hed]
      exact List.mem_cons_self _ _
    · simp only [lookupListeners, hk, if_false] at h
      exact List.mem_cons_of_mem _ (ih h)

theorem listenersFor_nodup {em : EventEmitter} (hwf : EmitterWF em) (e : String) :
    (listenersFor em e).Nodup := by
  unfold listenersFor
  rcases hl : lookupListeners em.listeners e with _ | ls
  · simp
  · simpa using hwf (e, ls) (lookup_mem hl)

theorem emOn_eq_pos {em : EventEmitter} {event : String} (l : Nat)
    (h : (lookupListeners em.listeners event).isSome) :
    emOn em event l
      = ⟨em.listeners.map (updateEntry event (fun s => addListener s l))⟩ := by
  unfold emOn
  rw [if_pos h]

theorem emOn_eq_neg {em : EventEmitter} {event : String} (l : Nat)
    (h : ¬ (lookupListeners em.listeners event).isSome) :
    emOn em event l = ⟨em.listeners ++ [(event, [l])]⟩ := by
  unfold emOn
  rw [if_neg h]

/-- Subscribing the identical listener twice leaves the emitter exactly where
one subscribe left it. -/
theorem emOn_idem (em : EventEmitter) (event : String) (l : Nat) :
    emOn (emOn em event l) event l = emOn em event l := by
  by_cases h : (lookupListeners em.listeners event).isSome
  · obtain ⟨ls, hls⟩ := Option.isSome_iff_exists.mp h
    have h2 : (lookupListeners (emOn em event l).listeners event).isSome := by
      rw [emOn_eq_pos l h]
      simp [lookup_map_update, hls]
    rw [emOn_eq_pos l h2, emOn_eq_pos l h]
    congr 1
    rw [List.map_map]
    apply List.map_congr_left
    intro p _
    simp only [Function.comp_apply]
    unfold updateEntry
    by_cases hp : p.1 = event <;> simp [hp, addListener_idem]
  · have hnone : lookupListeners em.listeners event = none :=
      Option.not_isSome_iff_eq_none.mp h
    have h2 : (lookupListeners (emOn em event l).listeners event).isSome := by
      rw [emOn_eq_neg l h]
      simp [lookup_append_single, hnone]
    rw [emOn_eq_pos l h2, emOn_eq_neg l h]
    congr 1
    rw [List.map_append]
    have hmap : em.listeners.map (updateEntry event (fun s => addListener s l))
        = em.listeners := by
      conv_rhs => rw [← List.map_id em.listeners]
      apply List.map_congr_left
      intro p hp
      have : ¬ p.1 = event := (lookup_eq_none_iff _ _).mp hnone p hp
      simp [updateEntry, this]
    rw [hmap]
    have hadd : addListener [l] l = [l] := by simp [addListener]
    simp [updateEntry, hadd]

theorem applyOp_not_listener {em : EventEmitter} {event : String} {l : Nat}
    (h : l ∉ listenersFor em event) {op : EmOp} (hop : op ≠ EmOp.on event l) :
    l ∉ listenersFor (applyOp em op) event := by
  rcases op with ⟨e', l'⟩ | ⟨e', l'⟩ | e'
  · by_cases he : e' = event
    · subst he
      have hl' : l' ≠ l := fun hh => hop (by rw [hh])
      rw [applyOp, listenersFor_emOn_self]
      intro hmem
      exact h (addListener_mem_of_ne hmem (fun hh => hl' hh.symm))
    · rw [applyOp, listenersFor_emOn_other _ (fun hh => he hh.symm)]
      exact h
  · by_cases he : e' = event
    · subst he
      rw [applyOp, listenersFor_emOff_self]
      intro hmem
      exact h (List.mem_of_mem_filter hmem)
    · rw [applyOp, listenersFor_emOff_other _ (fun hh => he hh.symm)]
      exact h
  · exact h

theorem applyOps_not_listener {em : EventEmitter} {event : String} {l : Nat}
    (h : l ∉ listenersFor em event) {ops : List EmOp}
    (hops : ∀ op ∈ ops, op ≠ EmOp.on event l) :
    l ∉ listenersFor (applyOps em ops) event := by
  induction ops generalizing em with
  | nil => exact h
  | cons hd tl ih =>
    rw [applyOps, List.foldl_cons]
    exact ih (applyOp_not_listener h (hops hd (List.mem_cons_self _ _)))
      (fun op hop => hops op (List.mem_cons_of_mem _ hop))

theorem not_mem_listenersFor_emOff (em : EventEmitter) (event : String) (l : Nat) :
    l ∉ listenersFor (emOff em event l) event := by
  rw [listenersFor_emOff_self]
  simp

/-!
## Claims about the Event Dispatcher
-/

/-- Claim C3 (code bug evidence): `emit` does not isolate listener failures.
With listeners `0` and `1` registered for `messageReceived` and listener `0`
throwing, `forEach` invokes only listener `0` and the exception escapes
`emit`; listener `1`, although still registered, is never invoked — so one
throwing listener does prevent the remaining listeners from running,
contradicting the specified fan-out isolation. -/
theorem emit_throwing_listener_halts_fanout :
    listenersFor (emOn (emOn ⟨[]⟩ MESSAGE_RECEIVED 0) MESSAGE_RECEIVED 1)
        MESSAGE_RECEIVED = [0, 1]
      ∧ emitRun (fun l => l == 0)
          (listenersFor (emOn (emOn ⟨[]⟩ MESSAGE_RECEIVED 0) MESSAGE_RECEIVED 1)
            MESSAGE_RECEIVED) = ([0], true) := by
  constructor <;> rfl

/-- Claim C4: subscribing the identical listener twice under one event name is
one subscribe (the emitter states are equal); a single publish then invokes
the listener exactly once, and a single unsubscribe removes it entirely. -/
theorem subscribe_duplicate_idempotent (em : EventEmitter) (event : String) (l : Nat)
    (hwf : EmitterWF em) :
    emOn (emOn em event l) event l = emOn em event l
      ∧ ((emitRun (fun _ => false)
            (listenersFor (emOn (emOn em event l) event l) event)).1).count l = 1
      ∧ l ∉ listenersFor (emOff (emOn (emOn em event l) event l) event l) event := by
  have hidem := emOn_idem em event l
  have hone : listenersFor (emOn (emOn em event l) event l) event
      = addListener (listenersFor em event) l := by
    rw [hidem, listenersFor_emOn_self]
  refine ⟨hidem, ?_, ?_⟩
  · rw [hone, emitRun_no_throw]
    exact addListener_count (listenersFor_nodup hwf event) l
  · rw [hidem, listenersFor_emOff_self]
    simp

/-- Claim C4 witness: the three conjuncts at the empty emitter, event
`messageReceived`, listener `0`. -/
theorem subscribe_duplicate_idempotent_witness :
    EmitterWF ⟨[]⟩
      ∧ (emOn (emOn ⟨[]⟩ MESSAGE_RECEIVED 0) MESSAGE_RECEIVED 0
            = emOn ⟨[]⟩ MESSAGE_RECEIVED 0
          ∧ ((emitRun (fun _ => false)
                (listenersFor (emOn (emOn ⟨[]⟩ MESSAGE_RECEIVED 0) MESSAGE_RECEIVED 0)
                  MESSAGE_RECEIVED)).1).count 0 = 1
          ∧ 0 ∉ listenersFor
              (emOff (emOn (emOn ⟨[]⟩ MESSAGE_RECEIVED 0) MESSAGE_RECEIVED 0)
                MESSAGE_RECEIVED 0) MESSAGE_RECEIVED) :=
  ⟨by decide, subscribe_duplicate_idempotent ⟨[]⟩ MESSAGE_RECEIVED 0 (by decide)⟩

/-- Claim C9: after `off(event, l)` the listener is absent from the fan-out
set of `event` under every later operation sequence that does not re-subscribe
it — including sequences that re-subscribed and unsubscribed other listeners
or other events, and any number of emits — so zero subsequent publishes invoke
it, whatever listeners throw. -/
theorem unsubscribe_receives_nothing (em : EventEmitter) (event : String) (l : Nat)
    (ops : List EmOp) (hops : ∀ op ∈ ops, op ≠ EmOp.on event l) (throws : Nat → Bool) :
    l ∉ listenersFor (applyOps (emOff em event l) ops) event
      ∧ l ∉ (emitRun throws
              (listenersFor (applyOps (emOff em event l) ops) event)).1 := by
  have habs := applyOps_not_listener (not_mem_listenersFor_emOff em event l) hops
  exact ⟨habs, fun hmem => habs (emitRun_subset throws _ l hmem)⟩

/-- Claim C9 witness: listener `3` unsubscribed from `messageReceived`; the
later turn re-subscribes and unsubscribes listener `5`, emits twice, and
listener `3` stays out of the fan-out set. -/
theorem unsubscribe_receives_nothing_witness :
    (∀ op ∈ [EmOp.on MESSAGE_RECEIVED 5, EmOp.emit MESSAGE_RECEIVED,
              EmOp.off MESSAGE_RECEIVED 5, EmOp.emit MESSAGE_RECEIVED],
        op ≠ EmOp.on MESSAGE_RECEIVED 3)
      ∧ (3 ∉ listenersFor
            (applyOps (emOff ⟨[(MESSAGE_RECEIVED, [3])]⟩ MESSAGE_RECEIVED 3)
              [EmOp.on MESSAGE_RECEIVED 5, EmOp.emit MESSAGE_RECEIVED,
                EmOp.off MESSAGE_RECEIVED 5, EmOp.emit MESSAGE_RECEIVED]) MESSAGE_RECEIVED
          ∧ 3 ∉ (emitRun (fun _ => false)
                  (listenersFor
                    (applyOps (emOff ⟨[(MESSAGE_RECEIVED, [3])]⟩ MESSAGE_RECEIVED 3)
                      [EmOp.on MESSAGE_RECEIVED 5, EmOp.emit MESSAGE_RECEIVED,
                        EmOp.off MESSAGE_RECEIVED 5, EmOp.emit MESSAGE_RECEIVED])
                    MESSAGE_RECEIVED)).1) :=
  ⟨by decide,
    unsubscribe_receives_nothing ⟨[(MESSAGE_RECEIVED, [3])]⟩ MESSAGE_RECEIVED 3
      [EmOp.on MESSAGE_RECEIVED 5, EmOp.emit MESSAGE_RECEIVED,
        EmOp.off MESSAGE_RECEIVED 5, EmOp.emit MESSAGE_RECEIVED] (by decide)
      (fun _ => false)⟩

/-!
## Claims about the bootstrap sequence and `initialize`
-/

theorem waitLoop_le (frameworkAt : Nat → Bool) (fuel attempts : Nat) :
    waitLoop frameworkAt fuel attempts ≤ attempts + fuel := by
  induction fuel generalizing attempts with
  | zero => simp [waitLoop]
  | succ f ih =>
    rw [waitLoop]
    by_cases h : frameworkAt attempts = true
    · rw [if_pos h]
      omega
    · rw [if_neg h]
      have := ih (attempts + 1)
      omega

/-- Claim C5: the polling phase terminates for every environment behaviour.
The loop performs at most `maxPollAttempts = 20` iterations (each sleeping
`pollIntervalMs = 100` milliseconds), and if the framework object has not
appeared at any of the bounded observations the bootstrap fails with the
framework-init-timeout error instead of polling forever. -/
theorem bootstrap_poll_bounded (frameworkAt : Nat → Bool) :
    waitLoop frameworkAt maxPollAttempts 0 ≤ maxPollAttempts
      ∧ pollIntervalMs * waitLoop frameworkAt maxPollAttempts 0 ≤ 2000
      ∧ ((∀ k, k ≤ maxPollAttempts → frameworkAt k = false) →
          waitForCastFramework frameworkAt
            = Except.error CastError.frameworkInitTimeout) := by
  have hle : waitLoop frameworkAt maxPollAttempts 0 ≤ maxPollAttempts := by
    simpa using waitLoop_le frameworkAt maxPollAttempts 0
  refine ⟨hle, ?_, ?_⟩
  · have : pollIntervalMs * waitLoop frameworkAt maxPollAttempts 0
        ≤ pollIntervalMs * maxPollAttempts := Nat.mul_le_mul_left _ hle
    calc pollIntervalMs * waitLoop frameworkAt maxPollAttempts 0
        ≤ pollIntervalMs * maxPollAttempts := this
      _ = 2000 := rfl
  · intro h
    unfold waitForCastFramework
    rw [h _ hle]
    simp

/-- Claim C5 witness: in an environment where the framework never appears, the
bound is met and the bootstrap fails with the timeout error. -/
theorem bootstrap_poll_bounded_witness :
    (∀ k, k ≤ maxPollAttempts → (fun _ => false : Nat → Bool) k = false)
      ∧ waitForCastFramework (fun _ => false)
          = Except.error CastError.frameworkInitTimeout :=
  ⟨fun _ _ => rfl, (bootstrap_poll_bounded (fun _ => false)).2.2 (fun _ _ => rfl)⟩

/-- Claim C6: on an adapter whose `initialized` flag is already true, a later
`initialize()` call resolves immediately as a no-op — it publishes no event,
performs no native listener registration, and leaves every instance field
(context, session, initialized flag, config, listener map) unchanged. -/
theorem initialize_idempotent (env : CastEnv) (s : ManagerState)
    (h : s.initialized = true) :
    initializeManager env s = InitResult.done s [] 0 := by
  unfold initializeManager
  rw [if_pos h]

/-- Claim C6 witness: the no-op repeat `initialize()` on a concrete
initialized adapter. -/
theorem initialize_idempotent_witness :
    initializedState.initialized = true
      ∧ initializeManager sampleEnv initializedState
          = InitResult.done initializedState [] 0 :=
  ⟨rfl, initialize_idempotent sampleEnv initializedState rfl⟩

/-!
## Claims about `sendMessage` and `destroy`
-/

/-- Claim C1 counterexample: in an initialized adapter that holds no session
handle (no "started"/"resumed" event ever delivered), `sendMessage` is not
SDK-silent — it queries `context.getCurrentSession()` (an SDK call); and when
that query finds a session the SDK itself knows about, `sendMessage` does not
even fail with `NoSessionError`, it sends.  Both refute "fails with
NoSessionError and performs no SDK call". -/
theorem sendMessage_claimC1_counterexample :
    (sendMessage sampleEnv (Except.ok ()) initializedState 42).2 ≠ ([] : List SdkCall)
      ∧ sendMessage sampleEnvWithSession (Except.ok ()) initializedState 42
          = (Except.ok { initializedState with session := some 7 },
              [SdkCall.getCurrentSession,
                SdkCall.sendToSession "urn:x-cast:com.custom" 42]) := by
  constructor
  · intro h
    simp [sendMessage, initializedState, sampleEnv] at h
  · rfl

/-- Claim C1 as amended: with no session handle held, if the adapter also
holds no context (never initialized, or destroyed), `sendMessage` fails with
`NoSessionError` and performs no SDK call; if a context is held, `sendMessage`
first queries the context's `getCurrentSession` and — when that reports no
session — fails with `NoSessionError` without performing any send. -/
theorem sendMessage_no_session (env : CastEnv) (sendResult : Except Nat Unit)
    (s : ManagerState) (message : Nat) (h : s.session = none) :
    (s.context = none →
        sendMessage env sendResult s message
          = (Except.error CastError.noSession, []))
      ∧ (env.currentSession = none →
          (sendMessage env sendResult s message).1 = Except.error CastError.noSession
            ∧ ∀ c m, SdkCall.sendToSession c m ∉ (sendMessage env sendResult s message).2) := by
  constructor
  · intro hc
    simp [sendMessage, h, hc]
  · intro hcs
    rcases hctx : s.context with _ | u
    · constructor
      · simp [sendMessage, h, hctx]
      · intro c m
        simp [sendMessage, h, hctx]
    · constructor
      · simp [sendMessage, h, hctx, hcs]
      · intro c m
        simp [sendMessage, h, hctx, hcs]

/-- Claim C1 (amended) witness: a freshly constructed adapter (no context) and
an initialized adapter over an SDK with no current session, both with no
handle held. -/
theorem sendMessage_no_session_witness :
    (newManager sampleUserConfig).session = none
      ∧ sendMessage sampleEnv (Except.ok ()) (newManager sampleUserConfig) 42
          = (Except.error CastError.noSession, [])
      ∧ ((sendMessage sampleEnv (Except.ok ()) initializedState 42).1
            = Except.error CastError.noSession
          ∧ ∀ c m, SdkCall.sendToSession c m
              ∉ (sendMessage sampleEnv (Except.ok ()) initializedState 42).2) :=
  ⟨rfl,
    (sendMessage_no_session sampleEnv (Except.ok ()) (newManager sampleUserConfig) 42
        rfl).1 rfl,
    (sendMessage_no_session sampleEnv (Except.ok ()) initializedState 42 rfl).2 rfl⟩

/-- Claim C8: `destroy()` resets the session and context references, so a
subsequent `sendMessage` fails with `NoSessionError` and makes no SDK call —
the optional chaining on the cleared context means no reference fault, which
the embedding exhibits as the `none`-context branch touching nothing. -/
theorem destroy_then_sendMessage (callerId : Nat) (w : World) (env : CastEnv)
    (sendResult : Except Nat Unit) (s : ManagerState) (message : Nat) :
    sendMessage env sendResult (destroy callerId s w).1 message
      = (Except.error CastError.noSession, []) := by
  simp [destroy, destroyFields, sendMessage]

/-!
## Claims about the session-lifecycle handler
-/

/-- Claim C2 counterexample: deliver `SESSION_STARTED` (handle `7`) and then
`NO_SESSION` to an initialized adapter.  The handler clears the handle only on
`SESSION_ENDED`, so the handle is still `7`, while the claim ("set to absent
exactly when lifecycle state is no-session or ended") requires it absent. -/
theorem session_handle_claimC2_counterexample :
    (applySessionEvents initializedState
        [(SessionState.SESSION_STARTED, some 7),
          (SessionState.NO_SESSION, none)]).session = some 7
      ∧ claimHandleNonNull
          [(SessionState.SESSION_STARTED, some 7),
            (SessionState.NO_SESSION, none)] = false
      ∧ ¬ ((applySessionEvents initializedState
              [(SessionState.SESSION_STARTED, some 7),
                (SessionState.NO_SESSION, none)]).session.isSome
            = claimHandleNonNull
                [(SessionState.SESSION_STARTED, some 7),
                  (SessionState.NO_SESSION, none)]) := by
  refine ⟨rfl, rfl, ?_⟩
  decide

/-- Claim C2 as amended: provided the SDK supplies a handle at every
"started"/"resumed" event (spec §3's guarantee), the held handle is non-null
iff the most recent handle-writing event (`SESSION_STARTED`,
`SESSION_RESUMED`, or `SESSION_ENDED`) of the delivered trace is a start or a
resume; `NO_SESSION` and the other lifecycle states leave the handle exactly
as it was, so the handle becomes absent only through `SESSION_ENDED`. -/
theorem session_handle_characterization (s : ManagerState)
    (evs : List (SessionState × Option Nat))
    (hsdk : ∀ ev ∈ evs, startedOrResumed ev.1 = true → ev.2.isSome = true) :
    (applySessionEvents s evs).session.isSome
      = match evs.reverse.find? (fun ev => settingEvent ev.1) with
        | some ev => startedOrResumed ev.1
        | none => s.session.isSome := by
  induction evs using List.reverseRecOn with
  | nil => simp [applySessionEvents]
  | append_singleton l e ih =>
    obtain ⟨st, cur⟩ := e
    have hstep : applySessionEvents s (l ++ [(st, cur)])
        = (onSessionStateChanged (applySessionEvents s l) st cur).1 := by
      unfold applySessionEvents
      rw [List.foldl_append]
      rfl
    have hl : ∀ ev ∈ l, startedOrResumed ev.1 = true → ev.2.isSome = true :=
      fun ev hev => hsdk ev (List.mem_append_left _ hev)
    rw [hstep, List.reverse_append]
    cases st with
    | SESSION_STARTED =>
      have hcur : cur.isSome = true :=
        hsdk (SessionState.SESSION_STARTED, cur)
          (List.mem_append_right _ (List.mem_singleton_self _))
          (by simp [startedOrResumed])
      simp [onSessionStateChanged, settingEvent, startedOrResumed, hcur]
    | SESSION_RESUMED =>
      have hcur : cur.isSome = true :=
        hsdk (SessionState.SESSION_RESUMED, cur)
          (List.mem_append_right _ (List.mem_singleton_self _))
          (by simp [startedOrResumed])
      simp [onSessionStateChanged, settingEvent, startedOrResumed, hcur]
    | SESSION_ENDED =>
      simp [onSessionStateChanged, settingEvent, startedOrResumed]
    | NO_SESSION =>
      simp only [onSessionStateChanged]
      rw [show (List.find? (fun ev => settingEvent ev.1)
            ([(SessionState.NO_SESSION, cur)].reverse ++ l.reverse))
          = List.find? (fun ev => settingEvent ev.1) l.reverse from by
        simp [settingEvent]]
      simpa [onSessionStateChanged, settingEvent] using ih hl
    | SESSION_STARTING =>
      simp only [onSessionStateChanged]
      rw [show (List.find? (fun ev => settingEvent ev.1)
            ([(SessionState.SESSION_STARTING, cur)].reverse ++ l.reverse))
          = List.find? (fun ev => settingEvent ev.1) l.reverse from by
        simp [settingEvent]]
      simpa [onSessionStateChanged, settingEvent] using ih hl
    | SESSION_START_FAILED =>
      simp only [onSessionStateChanged]
      rw [show (List.find? (fun ev => settingEvent ev.1)
            ([(SessionState.SESSION_START_FAILED, cur)].reverse ++ l.reverse))
          = List.find? (fun ev => settingEvent ev.1) l.reverse from by
        simp [settingEvent]]
      simpa [onSessionStateChanged, settingEvent] using ih hl
    | SESSION_ENDING =>
      simp only [onSessionStateChanged]
      rw [show (List.find? (fun ev => settingEvent ev.1)
            ([(SessionState.SESSION_ENDING, cur)].reverse ++ l.reverse))
          = List.find? (fun ev => settingEvent ev.1) l.reverse from by
        simp [settingEvent]]
      simpa [onSessionStateChanged, settingEvent] using ih hl

/-- Claim C2 (amended) witness: a start, a no-session (which does not clear),
and an end, on the initialized adapter — the handle ends absent because the
last handle-writing event is the `SESSION_ENDED`. -/
theorem session_handle_characterization_witness :
    (∀ ev ∈ [(SessionState.SESSION_STARTED, some 7),
              (SessionState.NO_SESSION, (none : Option Nat)),
              (SessionState.SESSION_ENDED, none)],
        startedOrResumed ev.1 = true → ev.2.isSome = true)
      ∧ (applySessionEvents initializedState
            [(SessionState.SESSION_STARTED, some 7),
              (SessionState.NO_SESSION, none),
              (SessionState.SESSION_ENDED, none)]).session.isSome
          = match ([(SessionState.SESSION_STARTED, some 7),
                    (SessionState.NO_SESSION, (none : Option Nat)),
                    (SessionState.SESSION_ENDED, none)]).reverse.find?
                (fun ev => settingEvent ev.1) with
            | some ev => startedOrResumed ev.1
            | none => initializedState.session.isSome :=
  ⟨by decide,
    session_handle_characterization initializedState
      [(SessionState.SESSION_STARTED, some 7),
        (SessionState.NO_SESSION, none),
        (SessionState.SESSION_ENDED, none)] (by decide)⟩

/-!
## Claims about the message channel and the singleton
-/

theorem processInbound_append (decode : String → Option Nat) (ns : String)
    (xs ys : List InboundMessage) :
    processInbound decode ns (xs ++ ys)
      = processInbound decode ns xs ++ processInbound decode ns ys := by
  induction xs with
  | nil => simp [processInbound]
  | cons hd tl ih =>
    have hcons : ∀ rest, processInbound decode ns (hd :: rest)
        = messageListenerCallback decode ns hd ++ processInbound decode ns rest :=
      fun rest => rfl
    rw [List.cons_append, hcons, hcons, ih, List.append_assoc]

/-- Claim C7: an inbound message whose string payload fails structured-data
decoding produces zero `messageReceived` events (the parse failure is caught
and only logged), and the channel keeps working — the events published for a
stream with the malformed message in the middle are exactly those of the
well-formed messages before and after it.  (`setupMessageListener` is total in
the embedding: both the parse failure and an `addMessageListener` failure are
caught inside it, so nothing throws out of the registration call.) -/
theorem malformed_message_dropped (decode : String → Option Nat) (ns : String)
    (pre post : List InboundMessage) (bad : String) (hbad : decode bad = none) :
    messageListenerCallback decode ns (InboundMessage.str bad) = []
      ∧ processInbound decode ns (pre ++ InboundMessage.str bad :: post)
          = processInbound decode ns pre ++ processInbound decode ns post := by
  have hcb : messageListenerCallback decode ns (InboundMessage.str bad) = [] := by
    simp [messageListenerCallback, hbad]
  refine ⟨hcb, ?_⟩
  have hmid : processInbound decode ns (InboundMessage.str bad :: post)
      = processInbound decode ns post := by
    simp [processInbound, hcb]
  rw [processInbound_append, hmid]

/-- Claim C7 witness: a good message, the malformed `"oops"`, and a structured
message — the malformed one is dropped, the other two are delivered. -/
theorem malformed_message_dropped_witness :
    sampleDecode "oops" = none
      ∧ (messageListenerCallback sampleDecode "urn:x-cast:com.custom"
            (InboundMessage.str "oops") = []
          ∧ processInbound sampleDecode "urn:x-cast:com.custom"
              ([InboundMessage.str "good"]
                ++ InboundMessage.str "oops" :: [InboundMessage.structured 2])
            = processInbound sampleDecode "urn:x-cast:com.custom"
                [InboundMessage.str "good"]
              ++ processInbound sampleDecode "urn:x-cast:com.custom"
                  [InboundMessage.structured 2]) :=
  ⟨by decide,
    malformed_message_dropped sampleDecode "urn:x-cast:com.custom"
      [InboundMessage.str "good"] [InboundMessage.structured 2] "oops" (by decide)⟩

/-- Claim C10: the static accessor and teardown of the singleton.  With no
stored instance, `getInstance` with no config throws, and with a config it
constructs, stores and returns a fresh adapter built from that config; with a
stored instance it returns exactly that instance, ignoring any config
argument and leaving the static state unchanged; and `destroy()` clears the
stored reference precisely when the calling instance is the stored one. -/
theorem getInstance_semantics (w : World) (c : CastManagerConfig)
    (cfg : Option CastManagerConfig) (inst : Nat × ManagerState)
    (callerId : Nat) (callerState : ManagerState) :
    (w.singleton = none →
        getInstance none w = Except.error CastError.configRequired)
      ∧ (w.singleton = none →
          getInstance (some c) w
            = Except.ok ((w.nextId, newManager c),
                ⟨some (w.nextId, newManager c), w.nextId + 1⟩))
      ∧ (w.singleton = some inst → getInstance cfg w = Except.ok (inst, w))
      ∧ (w.singleton.map Prod.fst = some callerId →
          (destroy callerId callerState w).2.singleton = none)
      ∧ (w.singleton.map Prod.fst ≠ some callerId →
          (destroy callerId callerState w).2 = w) := by
  refine ⟨?_, ?_, ?_, ?_, ?_⟩
  · intro h
    simp [getInstance, h]
  · intro h
    simp [getInstance, h]
  · intro h
    simp [getInstance, h]
  · intro h
    rcases hw : w.singleton with _ | i
    · rw [hw] at h
      simp at h
    · rw [hw] at h
      have hi : i.1 = callerId := by simpa using h
      simp [destroy, hw, hi]
  · intro h
    rcases hw : w.singleton with _ | i
    · simp [destroy, hw]
    · rw [hw] at h
      have hi : ¬ i.1 = callerId := by
        intro hh
        exact h (by simp [hh])
      simp [destroy, hw, hi]

/-- Claim C10 witness: starting from an empty static state — the config-less
call throws; the config-bearing call stores instance `0`; a later call with a
different config still returns instance `0` unchanged; `destroy` on instance
`0` clears the reference while `destroy` on a non-singleton id `5` leaves it. -/
theorem getInstance_semantics_witness :
    getInstance none ⟨none, 0⟩ = Except.error CastError.configRequired
      ∧ getInstance (some sampleUserConfig) ⟨none, 0⟩
          = Except.ok ((0, newManager sampleUserConfig),
              ⟨some (0, newManager sampleUserConfig), 1⟩)
      ∧ getInstance
            (some { receiverApplicationId := "OTHER", autoInitialize := none, ns := none })
            ⟨some (0, newManager sampleUserConfig), 1⟩
          = Except.ok ((0, newManager sampleUserConfig),
              ⟨some (0, newManager sampleUserConfig), 1⟩)
      ∧ (destroy 0 (newManager sampleUserConfig)
            ⟨some (0, newManager sampleUserConfig), 1⟩).2.singleton = none
      ∧ (destroy 5 (newManager sampleUserConfig)
            ⟨some (0, newManager sampleUserConfig), 1⟩).2
          = ⟨some (0, newManager sampleUserConfig), 1⟩ :=
  ⟨(getInstance_semantics ⟨none, 0⟩ sampleUserConfig none
      (0, newManager sampleUserConfig) 0 (newManager sampleUserConfig)).1 rfl,
    (getInstance_semantics ⟨none, 0⟩ sampleUserConfig none
      (0, newManager sampleUserConfig) 0 (newManager sampleUserConfig)).2.1 rfl,
    (getInstance_semantics ⟨some (0, newManager sampleUserConfig), 1⟩ sampleUserConfig
      (some { receiverApplicationId := "OTHER", autoInitialize := none, ns := none })
      (0, newManager sampleUserConfig) 0 (newManager sampleUserConfig)).2.2.1 rfl,
    (getInstance_semantics ⟨some (0, newManager sampleUserConfig), 1⟩ sampleUserConfig
      none (0, newManager sampleUserConfig) 0 (newManager sampleUserConfig)).2.2.2.1 rfl,
    (getInstance_semantics ⟨some (0, newManager sampleUserConfig), 1⟩ sampleUserConfig
      none (0, newManager sampleUserConfig) 5 (newManager sampleUserConfig)).2.2.2.2
      (by decide)⟩

end CastManagerSpec
